import Mathlib

/-!
Verification of the outcome-generation, rotation-mapping and settlement
core of the TavernGamble app (`app.py`, function `_spin_wheel` and the
game constants). Real-valued quantities are modelled as rationals; the
random draws consumed by one spin are passed explicitly as a `Draw`.
-/

namespace TavernGamble

/-- `LOSS_CHANCE = 0.10` (app.py line 18). -/
def LOSS_CHANCE : ℚ := 1/10

/-- `LOSS_PERCENTAGE = -10` (app.py line 19). -/
def LOSS_PERCENTAGE : ℚ := -10

/-- `MIN_PROFIT_PERCENT = 20` (app.py line 20). -/
def MIN_PROFIT_PERCENT : ℚ := 20

/-- `MAX_PROFIT_PERCENT = 200` (app.py line 21). -/
def MAX_PROFIT_PERCENT : ℚ := 200

/-- `loss_degrees = 360 * LOSS_CHANCE` (app.py line 918). -/
def loss_degrees : ℚ := 360 * LOSS_CHANCE

/-- `profit_degrees = 360 - loss_degrees` (app.py line 919). -/
def profit_degrees : ℚ := 360 - loss_degrees

/-- `margin = 2` (app.py line 923). -/
def margin : ℚ := 2

/-- `is_loss = random.random() < LOSS_CHANCE` (app.py line 917), with the
primary uniform draw `r` made explicit. -/
def is_loss (r : ℚ) : Bool := decide (r < LOSS_CHANCE)

/-- The two outcome regimes of the spec's data model. -/
inductive Category where
  | LOSS
  | PROFIT

deriving instance DecidableEq for Category

/-- The category of a draw, determined by `is_loss` (app.py lines 917, 921). -/
def category (r : ℚ) : Category :=
  if is_loss r then Category.LOSS else Category.PROFIT

/-- `result_pct` (app.py lines 922, 927-929): fixed `LOSS_PERCENTAGE` on a
loss, otherwise linear interpolation by the secondary uniform draw `u`. -/
def result_pct (r u : ℚ) : ℚ :=
  if is_loss r then LOSS_PERCENTAGE
  else MIN_PROFIT_PERCENT + u * (MAX_PROFIT_PERCENT - MIN_PROFIT_PERCENT)

/-- `target_angle` (app.py lines 924, 930): on a loss the angle is drawn
inside the loss arc inset by `margin`; on a profit the same `u` as the
percentage places the angle past the loss arc. -/
def target_angle (r u : ℚ) : ℚ :=
  if is_loss r then margin + u * (loss_degrees - 2 * margin)
  else loss_degrees + u * profit_degrees

/-- `extra_spins = 360 * random.randint(4, 7)` (app.py line 933), with the
integer draw made explicit. -/
def extra_spins (spinCount : ℕ) : ℚ := 360 * spinCount

/-- `final_rot = rotation() + extra_spins + (90 - target_angle)`
(app.py line 934). -/
def final_rot (prev : ℚ) (spinCount : ℕ) (angle : ℚ) : ℚ :=
  prev + extra_spins spinCount + (90 - angle)

/-- The random draws consumed by one spin: the primary uniform `r`
(line 917), the secondary uniform `u` (line 924 or 926), and the
`randint(4, 7)` spin count (line 933). -/
structure Draw where
  r : ℚ
  u : ℚ
  spinCount : ℕ

/-- The ranges guaranteed by `random.random()` (uniform in [0,1)) and
`random.randint(4, 7)`. -/
def Draw.valid (d : Draw) : Prop :=
  0 ≤ d.r ∧ d.r < 1 ∧ 0 ≤ d.u ∧ d.u < 1 ∧ 4 ≤ d.spinCount ∧ d.spinCount ≤ 7

instance (d : Draw) : Decidable d.valid := by
  unfold Draw.valid
  infer_instance

/-- The per-spin record `state` built at app.py lines 949-958 (the
timestamp string is presentation data and is omitted). -/
structure Settlement where
  investment : ℚ
  wheel_pct : ℚ
  flair_pct : ℚ
  base_outcome : ℚ
  flair_bonus_gp : ℚ
  net_profit : ℚ
  final_amount : ℚ

deriving instance DecidableEq for Settlement

/-- The earnings maths of app.py lines 943-947. -/
def settle (investment pct flair : ℚ) : Settlement :=
  let base_profit := investment * (pct / 100)
  let base_outcome := investment + base_profit
  let flair_bonus_gp := base_outcome * (flair / 100)
  let final_with_flair := base_outcome + flair_bonus_gp
  let net_profit := final_with_flair - investment
  { investment := investment
    wheel_pct := pct
    flair_pct := flair
    base_outcome := base_outcome
    flair_bonus_gp := flair_bonus_gp
    net_profit := net_profit
    final_amount := final_with_flair }

/-- The session-scoped reactive state: `rotation` (app.py line 901) and the
newest-first `ledger` (line 903). -/
structure SessionState where
  rotation : ℚ
  ledger : List Settlement

/-- One run of `_spin_wheel` (app.py lines 912-963): compute the outcome
from the draws, accumulate the rotation (lines 932-935), compute the
settlement (lines 942-958) and prepend it to the ledger (lines 960-963).
Returns the new state and the settlement record. -/
def spin_wheel (st : SessionState) (investment flair : ℚ) (d : Draw) :
    SessionState × Settlement :=
  let pct := result_pct d.r d.u
  let ang := target_angle d.r d.u
  let rot := final_rot st.rotation d.spinCount ang
  let s := settle investment pct flair
  (⟨rot, s :: st.ledger⟩, s)

/-- The inputs of one spin: investment, flair percentage, and the draws. -/
structure SpinInput where
  investment : ℚ
  flair : ℚ
  draw : Draw

/-- A session: `_spin_wheel` run once per input, threading the state. -/
def run_spins (st : SessionState) : List SpinInput → SessionState
  | [] => st
  | i :: rest => run_spins (spin_wheel st i.investment i.flair i.draw).1 rest

/-- Two rotation totals put the wheel in the same resting position iff
they differ by a whole number of turns. -/
def sameRestingPosition (x y : ℚ) : Prop := ∃ k : ℤ, x - y = 360 * k

/- Unfolding helper lemmas. -/

theorem is_loss_true_iff (r : ℚ) : is_loss r = true ↔ r < LOSS_CHANCE := by
  simp [is_loss]

theorem is_loss_false_iff (r : ℚ) : is_loss r = false ↔ ¬ r < LOSS_CHANCE := by
  simp [is_loss]

theorem result_pct_loss (r u : ℚ) (h : is_loss r = true) :
    result_pct r u = -10 := by
  simp [result_pct, h, LOSS_PERCENTAGE]

theorem result_pct_profit (r u : ℚ) (h : is_loss r = false) :
    result_pct r u = 20 + u * 180 := by
  simp [result_pct, h, MIN_PROFIT_PERCENT, MAX_PROFIT_PERCENT]
  norm_num

theorem target_angle_loss (r u : ℚ) (h : is_loss r = true) :
    target_angle r u = 2 + u * 32 := by
  simp [target_angle, h, margin, loss_degrees, LOSS_CHANCE]
  norm_num

theorem target_angle_profit (r u : ℚ) (h : is_loss r = false) :
    target_angle r u = 36 + u * 324 := by
  simp [target_angle, h, loss_degrees, profit_degrees, LOSS_CHANCE]
  norm_num

theorem category_loss_of (r : ℚ) (h : is_loss r = true) :
    category r = Category.LOSS := by
  simp [category, h]

theorem category_profit_of (r : ℚ) (h : is_loss r = false) :
    category r = Category.PROFIT := by
  simp [category, h]

theorem spin_wheel_ledger (st : SessionState) (investment flair : ℚ) (d : Draw) :
    ((spin_wheel st investment flair d).1).ledger =
      (spin_wheel st investment flair d).2 :: st.ledger := rfl

theorem spin_wheel_rotation (st : SessionState) (investment flair : ℚ) (d : Draw) :
    ((spin_wheel st investment flair d).1).rotation =
      final_rot st.rotation d.spinCount (target_angle d.r d.u) := rfl

theorem spin_wheel_snd (st : SessionState) (investment flair : ℚ) (d : Draw) :
    (spin_wheel st investment flair d).2 =
      settle investment (result_pct d.r d.u) flair := rfl

/-- C2: for every investment `I ≥ 0`, wheel percentage `w` and bonus `b ≥ 0`,
the settlement satisfies `baseOutcome = I + I*(w/100)`,
`bonusAmount = baseOutcome*(b/100)`, `finalAmount = baseOutcome + bonusAmount`
and `netProfit = finalAmount − I` exactly; and the scenario
investment = 100, wheel = −10, bonus = 5 yields baseOutcome = 90,
bonusAmount = 4.5, finalAmount = 94.5, netProfit = −5.5. -/
theorem C2_settlement_identities (I w b : ℚ) (hI : 0 ≤ I) (hb : 0 ≤ b) :
    (settle I w b).base_outcome = I + I * (w / 100) ∧
    (settle I w b).flair_bonus_gp = (settle I w b).base_outcome * (b / 100) ∧
    (settle I w b).final_amount =
      (settle I w b).base_outcome + (settle I w b).flair_bonus_gp ∧
    (settle I w b).net_profit = (settle I w b).final_amount - I ∧
    (settle 100 (-10) 5).base_outcome = 90 ∧
    (settle 100 (-10) 5).flair_bonus_gp = 9/2 ∧
    (settle 100 (-10) 5).final_amount = 189/2 ∧
    (settle 100 (-10) 5).net_profit = -(11/2) := by
  refine ⟨rfl, rfl, rfl, rfl, ?_, ?_, ?_, ?_⟩ <;> norm_num [settle]

/-- Witness for C2 at investment = 100, wheel = −10, bonus = 5. -/
theorem C2_settlement_identities_witness :
    (0:ℚ) ≤ 100 ∧ (0:ℚ) ≤ 5 ∧ (settle 100 (-10) 5).net_profit = -(11/2) :=
  ⟨by norm_num, by norm_num,
    (C2_settlement_identities 100 (-10) 5 (by norm_num) (by norm_num)).2.2.2.2.2.2.2⟩

/-- C3: for every PROFIT draw with secondary uniform `u ∈ [0,1)`, the
percentage equals `20 + u × (200 − 20)` and the dial angle equals
`36 + u × 324`, with the same `u` in both, and the percentage lies in
[20, 200]. -/
theorem C3_profit_interpolation (r u : ℚ) (hr : ¬ r < LOSS_CHANCE)
    (h0 : 0 ≤ u) (h1 : u < 1) :
    result_pct r u = 20 + u * (200 - 20) ∧
    target_angle r u = 36 + u * 324 ∧
    20 ≤ result_pct r u ∧ result_pct r u ≤ 200 := by
  have hl : is_loss r = false := (is_loss_false_iff r).mpr hr
  rw [result_pct_profit r u hl, target_angle_profit r u hl]
  refine ⟨by ring, rfl, by nlinarith, by nlinarith⟩

/-- Witness for C3 at r = 1/2, u = 1/2. -/
theorem C3_profit_interpolation_witness :
    result_pct (1/2) (1/2) = 20 + (1/2 : ℚ) * (200 - 20) ∧
    target_angle (1/2) (1/2) = 36 + (1/2 : ℚ) * 324 := by
  have h := C3_profit_interpolation (1/2) (1/2)
    (by norm_num [LOSS_CHANCE]) (by norm_num) (by norm_num)
  exact ⟨h.1, h.2.1⟩

/-- C4: for every primary uniform value `r`, if `r < 0.10` the category is
LOSS with percentage fixed at −10, and otherwise the category is PROFIT. -/
theorem C4_loss_threshold (r u : ℚ) :
    (r < 1/10 → category r = Category.LOSS ∧ result_pct r u = -10) ∧
    (¬ r < 1/10 → category r = Category.PROFIT) := by
  constructor
  · intro h
    have hl : is_loss r = true := (is_loss_true_iff r).mpr (by rw [LOSS_CHANCE]; exact h)
    exact ⟨category_loss_of r hl, result_pct_loss r u hl⟩
  · intro h
    have hl : is_loss r = false := (is_loss_false_iff r).mpr (by rw [LOSS_CHANCE]; exact h)
    exact category_profit_of r hl

/-- Witness for C4 at r = 1/20 (loss side) and r = 1/2 (profit side). -/
theorem C4_loss_threshold_witness :
    category (1/20) = Category.LOSS ∧ result_pct (1/20) 0 = -10 ∧
    category (1/2) = Category.PROFIT := by
  refine ⟨?_, ?_, ?_⟩
  · exact ((C4_loss_threshold (1/20) 0).1 (by norm_num)).1
  · exact ((C4_loss_threshold (1/20) 0).1 (by norm_num)).2
  · exact (C4_loss_threshold (1/2) 0).2 (by norm_num)

/-- C5: for every draw with `u ∈ [0,1)`, the dial angle lies in [2, 34]
when the category is LOSS and in [36, 360) when it is PROFIT. -/
theorem C5_angle_sectors (r u : ℚ) (h0 : 0 ≤ u) (h1 : u < 1) :
    (category r = Category.LOSS →
      2 ≤ target_angle r u ∧ target_angle r u ≤ 34) ∧
    (category r = Category.PROFIT →
      36 ≤ target_angle r u ∧ target_angle r u < 360) := by
  cases hl : is_loss r with
  | false =>
    refine ⟨fun hc => ?_, fun _ => ?_⟩
    · rw [category_profit_of r hl] at hc
      exact absurd hc (by simp)
    · rw [target_angle_profit r u hl]
      constructor <;> nlinarith
  | true =>
    refine ⟨fun _ => ?_, fun hc => ?_⟩
    · rw [target_angle_loss r u hl]
      constructor <;> nlinarith
    · rw [category_loss_of r hl] at hc
      exact absurd hc (by simp)

/-- Witness for C5 at r = 1/20, u = 1/2 (loss) and r = 1/2, u = 1/2
(profit). -/
theorem C5_angle_sectors_witness :
    (2 ≤ target_angle (1/20) (1/2) ∧ target_angle (1/20) (1/2) ≤ 34) ∧
    (36 ≤ target_angle (1/2) (1/2) ∧ target_angle (1/2) (1/2) < 360) := by
  constructor
  · exact (C5_angle_sectors (1/20) (1/2) (by norm_num) (by norm_num)).1
      (by rw [category_loss_of]; rw [is_loss_true_iff, LOSS_CHANCE]; norm_num)
  · exact (C5_angle_sectors (1/2) (1/2) (by norm_num) (by norm_num)).2
      (by rw [category_profit_of]; rw [is_loss_false_iff, LOSS_CHANCE]; norm_num)

/-- C1: refuted on the code. `final_rot` adds `360*spinCount + (90 − angle)`
to the PREVIOUS total (app.py line 934), so after a first spin leaving a
total of 1180° (draw r = 1/2, u = 157/162, spinCount = 4, angle 350°), a
second spin with dial angle 36° (r = 1/2, u = 0, spinCount = 4) leaves a
total of 2674°, and 2674 mod 360 = 154 ≠ 54 = (90 − 36) mod 360: the
resting position depends on the prior accumulator value, contradicting the
claimed invariant. -/
theorem C1_resting_position_depends_on_history :
    ((spin_wheel ⟨0, []⟩ 100 5 ⟨1/2, 157/162, 4⟩).1).rotation = 1180 ∧
    target_angle (1/2) 0 = 36 ∧
    ((spin_wheel (spin_wheel ⟨0, []⟩ 100 5 ⟨1/2, 157/162, 4⟩).1
        100 5 ⟨1/2, 0, 4⟩).1).rotation = 2674 ∧
    ¬ sameRestingPosition
        ((spin_wheel (spin_wheel ⟨0, []⟩ 100 5 ⟨1/2, 157/162, 4⟩).1
            100 5 ⟨1/2, 0, 4⟩).1).rotation
        (90 - target_angle (1/2) 0) := by
  have hl : is_loss (1/2) = false :=
    (is_loss_false_iff _).mpr (by norm_num [LOSS_CHANCE])
  have ha1 : target_angle (1/2) (157/162) = 350 := by
    rw [target_angle_profit _ _ hl]
    norm_num
  have ha2 : target_angle (1/2) 0 = 36 := by
    rw [target_angle_profit _ _ hl]
    norm_num
  have e1 : ((spin_wheel ⟨0, []⟩ 100 5 ⟨1/2, 157/162, 4⟩).1).rotation = 1180 := by
    rw [spin_wheel_rotation]
    show final_rot (0:ℚ) 4 (target_angle (1/2) (157/162)) = 1180
    rw [ha1]
    norm_num [final_rot, extra_spins]
  have e2 : ((spin_wheel (spin_wheel ⟨0, []⟩ 100 5 ⟨1/2, 157/162, 4⟩).1
      100 5 ⟨1/2, 0, 4⟩).1).rotation = 2674 := by
    rw [spin_wheel_rotation]
    show final_rot ((spin_wheel ⟨0, []⟩ 100 5 ⟨1/2, 157/162, 4⟩).1).rotation
      4 (target_angle (1/2) 0) = 2674
    rw [e1, ha2]
    norm_num [final_rot, extra_spins]
  refine ⟨e1, ha2, e2, ?_⟩
  rintro ⟨k, hk⟩
  rw [e2, ha2] at hk
  have h4 : (2620 : ℚ) = 360 * (k : ℚ) := by linarith
  have h3 : (2620 : ℤ) = 360 * k := by exact_mod_cast h4
  omega

/-- C6: every spin strictly increases the accumulated rotation: for valid
draws (`u ∈ [0,1)`, `spinCount ∈ {4,…,7}`) the new total
`prev + 360*spinCount + (90 − angle)` exceeds the previous total. -/
theorem C6_rotation_strictly_increasing (st : SessionState)
    (investment flair : ℚ) (d : Draw) (hv : d.valid) :
    st.rotation < ((spin_wheel st investment flair d).1).rotation := by
  obtain ⟨hr0, hr1, hu0, hu1, hs4, hs7⟩ := hv
  rw [spin_wheel_rotation]
  have hsc : (1440 : ℚ) ≤ extra_spins d.spinCount := by
    unfold extra_spins
    have h4 : (4 : ℚ) ≤ (d.spinCount : ℚ) := by exact_mod_cast hs4
    nlinarith
  have hang : target_angle d.r d.u < 360 := by
    cases hl : is_loss d.r with
    | false =>
      rw [target_angle_profit d.r d.u hl]
      nlinarith
    | true =>
      rw [target_angle_loss d.r d.u hl]
      nlinarith
  unfold final_rot
  nlinarith

/-- Witness for C6: the first spin with draws r = 1/2, u = 1/2,
spinCount = 4 increases the total from 0. -/
theorem C6_rotation_strictly_increasing_witness :
    (⟨0, []⟩ : SessionState).rotation <
      ((spin_wheel ⟨0, []⟩ 100 5 ⟨1/2, 1/2, 4⟩).1).rotation :=
  C6_rotation_strictly_increasing ⟨0, []⟩ 100 5 ⟨1/2, 1/2, 4⟩
    (by unfold Draw.valid; norm_num)

/-- C7: for two PROFIT draws with secondary uniform values `u1 < u2`, the
percentages and the dial angles are strictly ordered the same way. -/
theorem C7_profit_monotone (r1 r2 u1 u2 : ℚ)
    (h1 : ¬ r1 < LOSS_CHANCE) (h2 : ¬ r2 < LOSS_CHANCE) (h : u1 < u2) :
    result_pct r1 u1 < result_pct r2 u2 ∧
    target_angle r1 u1 < target_angle r2 u2 := by
  have hl1 : is_loss r1 = false := (is_loss_false_iff r1).mpr h1
  have hl2 : is_loss r2 = false := (is_loss_false_iff r2).mpr h2
  rw [result_pct_profit r1 u1 hl1, result_pct_profit r2 u2 hl2,
    target_angle_profit r1 u1 hl1, target_angle_profit r2 u2 hl2]
  constructor <;> nlinarith

/-- Witness for C7 at r1 = r2 = 1/2, u1 = 0, u2 = 1/2. -/
theorem C7_profit_monotone_witness :
    result_pct (1/2) 0 < result_pct (1/2) (1/2) ∧
    target_angle (1/2) 0 < target_angle (1/2) (1/2) :=
  C7_profit_monotone (1/2) (1/2) 0 (1/2)
    (by norm_num [LOSS_CHANCE]) (by norm_num [LOSS_CHANCE]) (by norm_num)

/-- C8 counterexample: a spin with investment = −100 (and flair 5, draws
r = 1/2, u = 0, spinCount = 4) does not fail: it produces and records a
concrete SettlementResult, so negative investment is NOT rejected. -/
theorem C8_counterexample_negative_investment_settles :
    (spin_wheel ⟨0, []⟩ (-100) 5 ⟨1/2, 0, 4⟩).2 =
      { investment := -100
        wheel_pct := 20
        flair_pct := 5
        base_outcome := -120
        flair_bonus_gp := -6
        net_profit := -26
        final_amount := -126 } ∧
    ((spin_wheel ⟨0, []⟩ (-100) 5 ⟨1/2, 0, 4⟩).1).ledger.length = 1 := by
  have hl : is_loss (1/2) = false :=
    (is_loss_false_iff _).mpr (by norm_num [LOSS_CHANCE])
  have hp : result_pct (1/2) 0 = 20 := by
    rw [result_pct_profit _ _ hl]
    norm_num
  constructor
  · rw [spin_wheel_snd]
    show settle (-100) (result_pct (1/2) 0) 5 = _
    rw [hp]
    simp only [settle, Settlement.mk.injEq]
    norm_num
  · rfl

/-- C8 amended: the core performs no investment validation — for every
numeric investment, negative included, the spin computes a settlement by
the usual arithmetic and appends it to the ledger; no error path exists. -/
theorem C8_no_input_validation (st : SessionState) (investment flair : ℚ)
    (d : Draw) :
    (spin_wheel st investment flair d).2.investment = investment ∧
    (spin_wheel st investment flair d).2 =
      settle investment (result_pct d.r d.u) flair ∧
    ((spin_wheel st investment flair d).1).ledger =
      (spin_wheel st investment flair d).2 :: st.ledger :=
  ⟨rfl, rfl, rfl⟩

theorem run_spins_ledger_length :
    ∀ (inputs : List SpinInput) (st : SessionState),
      (run_spins st inputs).ledger.length = st.ledger.length + inputs.length
  | [], st => by simp [run_spins]
  | i :: rest, st => by
    have ih := run_spins_ledger_length rest
      (spin_wheel st i.investment i.flair i.draw).1
    rw [run_spins, ih, spin_wheel_ledger]
    simp
    omega

theorem run_spins_append :
    ∀ (js : List SpinInput) (st : SessionState) (i : SpinInput),
      run_spins st (js ++ [i]) =
        (spin_wheel (run_spins st js) i.investment i.flair i.draw).1
  | [], _, _ => rfl
  | j :: rest, st, i => by
    rw [List.cons_append, run_spins, run_spins]
    exact run_spins_append rest _ i

/-- C9: each spin prepends its settlement to the ledger, growing it by one
and leaving every previously stored entry in place; after N spins from an
empty ledger the length is N, and for any session the first element after
the last spin is that spin's settlement. -/
theorem C9_ledger_append :
    (∀ (st : SessionState) (investment flair : ℚ) (d : Draw),
      ((spin_wheel st investment flair d).1).ledger =
        (spin_wheel st investment flair d).2 :: st.ledger) ∧
    (∀ (rot : ℚ) (inputs : List SpinInput),
      (run_spins ⟨rot, []⟩ inputs).ledger.length = inputs.length) ∧
    (∀ (st : SessionState) (js : List SpinInput) (i : SpinInput),
      (run_spins st (js ++ [i])).ledger =
        settle i.investment (result_pct i.draw.r i.draw.u) i.flair ::
          (run_spins st js).ledger) := by
  refine ⟨fun st investment flair d => rfl, fun rot inputs => ?_, fun st js i => ?_⟩
  · rw [run_spins_ledger_length]
    simp
  · rw [run_spins_append, spin_wheel_ledger, spin_wheel_snd]

/-- C10: the settlement record of a spin is unchanged if the prior rotation
total and the spin-count draw change, all money inputs and the uniform
draws being equal: the rotation accumulator never influences the recorded
money values. -/
theorem C10_settlement_noninterference (st1 st2 : SessionState)
    (investment flair r u : ℚ) (sc1 sc2 : ℕ) :
    (spin_wheel st1 investment flair ⟨r, u, sc1⟩).2 =
      (spin_wheel st2 investment flair ⟨r, u, sc2⟩).2 := rfl

end TavernGamble
